import Mathlib

/-!
Verification of the flight-search orchestration pipeline of `app.py`
(`FlightBookingAgent`): date formatting, search-URL construction, the
fail-soft extraction wrapper, and the recommendation-composition branch
of `search_flights`.

The Python runtime values that flow through the pipeline (the provider
response dictionary, its `data` payload, the `flights` field) are
embedded as the inductive `PyVal`; Python exceptions are embedded as the
`Except` monad with error type `PyErr`.  The two external collaborators
are oracles: the Firecrawl extraction call is a `FirecrawlOutcome`
(either a thrown transport exception or a returned response value) and
the LLM agent is a function `String → Except String String` (either a
raised exception or the run response's `content`).  `search_flights`
additionally records the list of prompts passed to the agent so that
"the composer is invoked exactly once" is a provable statement.
-/

/-- Embedding of the Python values relevant to the pipeline: `None`,
booleans, strings, integers, lists and string-keyed dictionaries. -/
inductive PyVal where
  | null : PyVal
  | boolean : Bool → PyVal
  | string : String → PyVal
  | intval : Int → PyVal
  | listval : List PyVal → PyVal
  | dictval : List (String × PyVal) → PyVal

/-- Embedding of the Python exceptions that can escape `search_flights`:
`ValueError` (from `datetime.strptime`), `AttributeError` (calling
`.get` on a non-dict value) and any exception raised by `agent.run`. -/
inductive PyErr where
  | valueError : PyErr
  | attributeError : PyErr
  | agentError : String → PyErr
deriving DecidableEq

/-- Python truthiness (`if not flights:`): `None`, `False`, `""`, `0`,
`[]` and `\x7b\x7d` are falsy, everything else is truthy. -/
def truthy : PyVal → Bool
  | PyVal.null => false
  | PyVal.boolean b => b
  | PyVal.string s => !s.isEmpty
  | PyVal.intval n => n != 0
  | PyVal.listval xs => !xs.isEmpty
  | PyVal.dictval es => !es.isEmpty

/-- Lookup of a key in a dictionary's entry list, with a default:
the value part of `dict.get(key, default)`. -/
def dictLookupD (es : List (String × PyVal)) (key : String) (dflt : PyVal) : PyVal :=
  match es.find? (fun p => p.1 == key) with
  | some p => p.2
  | none => dflt

/-- Embedding of the Python expression `v.get(key, dflt)`: succeeds with
the looked-up value (or the default) when `v` is a dict, and raises
`AttributeError` when `v` is any other value (as `None.get`, `"x".get`,
`[].get` all do). -/
def pyGet (v : PyVal) (key : String) (dflt : PyVal) : Except PyErr PyVal :=
  match v with
  | PyVal.dictval es => Except.ok (dictLookupD es key dflt)
  | _ => Except.error PyErr.attributeError

mutual
/-- Embedding of Python `str()` on a `PyVal` (what an f-string
interpolation `f"...\x7bflights\x7d..."` produces): container elements are
rendered with `repr`, which quotes strings.  Escaping inside quoted
strings is not modelled. -/
def pyStr : PyVal → String
  | PyVal.null => "None"
  | PyVal.boolean b => cond b "True" "False"
  | PyVal.string s => s
  | PyVal.intval n => n.repr
  | PyVal.listval xs => "[" ++ pyStrItems xs ++ "]"
  | PyVal.dictval es => "\x7b" ++ pyStrEntries es ++ "\x7d"

/-- Embedding of Python `repr()` as used for elements inside a rendered
container: like `pyStr` but strings are quoted. -/
def pyReprVal : PyVal → String
  | PyVal.null => "None"
  | PyVal.boolean b => cond b "True" "False"
  | PyVal.string s => "\x27" ++ s ++ "\x27"
  | PyVal.intval n => n.repr
  | PyVal.listval xs => "[" ++ pyStrItems xs ++ "]"
  | PyVal.dictval es => "\x7b" ++ pyStrEntries es ++ "\x7d"

/-- Comma-separated rendering of the elements of a Python list. -/
def pyStrItems : List PyVal → String
  | [] => ""
  | [v] => pyReprVal v
  | v :: vs => pyReprVal v ++ ", " ++ pyStrItems vs

/-- Comma-separated rendering of the entries of a Python dict. -/
def pyStrEntries : List (String × PyVal) → String
  | [] => ""
  | [(k, v)] => "\x27" ++ k ++ "\x27: " ++ pyReprVal v
  | (k, v) :: es => "\x27" ++ k ++ "\x27: " ++ pyReprVal v ++ ", " ++ pyStrEntries es
end

/-- Embedding of Python `str.lower` on one character, for the ASCII
range that IATA codes and cabin classes use: `A`–`Z` maps to `a`–`z`,
everything else is unchanged. -/
def pyLowerChar (c : Char) : Char :=
  if 65 ≤ c.toNat ∧ c.toNat ≤ 90 then Char.ofNat (c.toNat + 32) else c

/-- Embedding of Python `str.lower` (ASCII range). -/
def pyLower (s : String) : String := ⟨s.data.map pyLowerChar⟩

/-- Embedding of Python `str.upper` on one character (ASCII range). -/
def pyUpperChar (c : Char) : Char :=
  if 97 ≤ c.toNat ∧ c.toNat ≤ 122 then Char.ofNat (c.toNat - 32) else c

/-- Embedding of Python `str.upper` (ASCII range). -/
def pyUpper (s : String) : String := ⟨s.data.map pyUpperChar⟩

/-- Numeric value of a list of decimal digit characters (the `int()`
conversion `strptime` applies to a matched digit group). -/
def digitsToNat (l : List Char) : Nat :=
  l.foldl (fun a c => a * 10 + (c.toNat - 48)) 0

/-- Splits a character list at every `-`, keeping empty pieces, as the
literal `-` separators of the format `"%Y-%m-%d"` do. -/
def splitDashes : List Char → List (List Char)
  | [] => [[]]
  | c :: rest =>
    if c = '-' then [] :: splitDashes rest
    else
      match splitDashes rest with
      | [] => [[c]]
      | piece :: pieces => (c :: piece) :: pieces

/-- Gregorian leap-year test used by `datetime`'s calendar validation. -/
def isLeap (y : Nat) : Bool :=
  (y % 4 == 0 && y % 100 != 0) || y % 400 == 0

/-- Number of days in a month of the proleptic Gregorian calendar, as
`datetime` validates it. -/
def daysInMonth (y m : Nat) : Nat :=
  if m = 2 then (if isLeap y then 29 else 28)
  else if m = 4 ∨ m = 6 ∨ m = 9 ∨ m = 11 then 30
  else 31

/-- Embedding of `datetime.strptime(s, "%Y-%m-%d")`: the whole string
must match `%Y` (exactly four digits), a literal `-`, `%m` (one or two
digits with value 1–12), a literal `-`, and `%d` (one or two digits with
value 1–31); the resulting triple must then be a valid calendar date
with year at least `MINYEAR = 1`.  Returns `none` where Python raises
`ValueError`. -/
def strptimeYmd (s : String) : Option (Nat × Nat × Nat) :=
  match splitDashes s.data with
  | [ys, ms, ds] =>
    let yn := digitsToNat ys
    let mn := digitsToNat ms
    let dn := digitsToNat ds
    if ys.length = 4 ∧ ys.all (fun c => c.isDigit) = true ∧
       (ms.length = 1 ∨ ms.length = 2) ∧ ms.all (fun c => c.isDigit) = true ∧
       (ds.length = 1 ∨ ds.length = 2) ∧ ds.all (fun c => c.isDigit) = true ∧
       1 ≤ yn ∧ 1 ≤ mn ∧ mn ≤ 12 ∧ 1 ≤ dn ∧ dn ≤ daysInMonth yn mn
    then some (yn, mn, dn)
    else none
  | _ => none

/-- Two-digit zero-padded rendering of a field value, as the `strftime`
directives `%d`, `%m` and `%y` pad their (two-digit) values. -/
def pad2 (n : Nat) : String :=
  if n < 10 then "0" ++ Nat.repr n else Nat.repr n

/-- Embedding of `date.strftime("%d%m%y")` on a parsed date. -/
def strftimeDmy (y m d : Nat) : String :=
  pad2 d ++ pad2 m ++ pad2 (y % 100)

/-- Embedding of `FlightBookingAgent._format_date`: parse with
`strptime("%Y-%m-%d")`, re-render with `strftime("%d%m%y")`; the
`ValueError` raised on an unparsable input propagates (the spec calls
this failure `MalformedDateError`). -/
def format_date (s : String) : Except PyErr String :=
  match strptimeYmd s with
  | some (y, m, d) => Except.ok (strftimeDmy y m d)
  | none => Except.error PyErr.valueError

/-- Embedding of `SKYSCANNER_URL_TEMPLATE.format(...)`: pure
interpolation of the five already-prepared fields into the fixed
template. -/
def skyscannerURL (origin destination date adults cabin_class : String) : String :=
  "https://www.skyscanner.co.in/transport/flights/" ++ origin ++ "/" ++ destination
    ++ "/" ++ date ++ "/?adultsv2=" ++ adults ++ "&cabinclass=" ++ cabin_class

/-- The `flight_url` built in `search_flights`: origin, destination and
cabin class are lowercased, the adults count is rendered in decimal, and
all are interpolated into `SKYSCANNER_URL_TEMPLATE`. -/
def flight_url_of (origin destination formatted_date : String) (adults : Int)
    (cabin_class : String) : String :=
  skyscannerURL (pyLower origin) (pyLower destination) formatted_date
    (toString adults) (pyLower cabin_class)

/-- The extraction prompt f-string built in `search_flights`
(lines 76–82 of `app.py`). -/
def extractionPrompt (origin destination departure_date : String) : String :=
  "\n        Extract flight details from " ++ origin ++ " to " ++ destination
    ++ " on " ++ departure_date ++ ".\n\n        **Requirements:**\n        - Only flights on "
    ++ departure_date
    ++ "\n        - Include airline name, flight number, departure/arrival times, duration, stops, and ticket price.\n        "

/-- The JSON schema `FlightsResponse.model_json_schema()` passed to the
extraction call; it is forwarded opaquely to the external provider and
never inspected by the pipeline, so it is modelled as an opaque-to-us
dictionary value. -/
def flightsSchema : PyVal := PyVal.dictval []

/-- Outcome of the external `firecrawl.extract` call: either it raises
some transport/parse exception, or it returns a response value. -/
inductive FirecrawlOutcome where
  | raises : FirecrawlOutcome
  | returns : PyVal → FirecrawlOutcome

/-- Embedding of `FlightBookingAgent._fetch_flight_data`: inside the
`try`, read `response.get('success')`; when truthy return
`response.get('data', \x7b\x7d)`, otherwise log and fall through to
`return \x7b\x7d`.  Every exception inside the `try` (the transport call
itself, or `.get` on a non-dict response) is caught and also yields
`\x7b\x7d`.  The function is total: it never raises. -/
def fetch_flight_data (url prompt : String) (schema : PyVal)
    (outcome : FirecrawlOutcome) : PyVal :=
  match outcome with
  | FirecrawlOutcome.raises => PyVal.dictval []
  | FirecrawlOutcome.returns resp =>
    match pyGet resp "success" PyVal.null with
    | Except.error _ => PyVal.dictval []
    | Except.ok s =>
      if truthy s then
        match pyGet resp "data" (PyVal.dictval []) with
        | Except.error _ => PyVal.dictval []
        | Except.ok d => d
      else PyVal.dictval []

/-- The extraction step of `search_flights` (lines 85–86 of `app.py`):
`data = self._fetch_flight_data(...)` followed by
`flights = data.get('flights', [])`.  The second call is outside the
`try`/`except` of `_fetch_flight_data`, so its `AttributeError` (when
`data` is not a dict) is not caught here. -/
def extractFlights (url prompt : String) (schema : PyVal)
    (outcome : FirecrawlOutcome) : Except PyErr PyVal :=
  pyGet (fetch_flight_data url prompt schema outcome) "flights" (PyVal.listval [])

/-- The extraction step, with the (ignored) request arguments fixed:
what flights a given provider outcome leads to. -/
def providerFlights (outcome : FirecrawlOutcome) : Except PyErr PyVal :=
  extractFlights "" "" PyVal.null outcome

/-- The fallback result of `search_flights` when no flights were
extracted ("No flights found", with the built URL as a manual link). -/
def noFlightsMsg (flight_url : String) : String :=
  "No flights found. [Check Skyscanner](" ++ flight_url ++ ")"

/-- The analysis prompt f-string built in `search_flights`
(lines 92–107 of `app.py`): header with uppercased codes, the
interpolated raw flights value, the four analytical directives, and the
trailing Skyscanner link. -/
def analysisPrompt (origin destination : String) (flights : PyVal)
    (flight_url : String) : String :=
  "\n        ✈️ **Best Flights from " ++ pyUpper origin ++ " to " ++ pyUpper destination
    ++ "**\n        "
    ++ pyStr flights
    ++ "\n\n        💰 **Price Comparison**\n        - "
    ++ "Compare flights based on ticket price, travel time, and layovers."
    ++ "\n\n        🔥 **Best Value Picks**\n        - "
    ++ "Highlight 3 best flights based on cost, convenience, and airline service."
    ++ "\n\n        🎯 **Booking Recommendations**\n        - "
    ++ "When to book for the best price?"
    ++ "\n        - "
    ++ "Which airline offers the best experience?"
    ++ "\n\n        **🔗 Check all flights here:** [Skyscanner Link]("
    ++ flight_url
    ++ ")\n        "

/-- Result of a completed `search_flights` run: the returned string and,
as instrumentation of the embedding, the list of prompts the LLM agent
was invoked with during the run. -/
structure RunResult where
  result : String
  agentCalls : List String
deriving DecidableEq

/-- Embedding of `FlightBookingAgent.search_flights`.  The provider
outcome and the agent are oracles; a `RunResult` is produced when the
Python method returns, and `Except.error` when an exception escapes it:
`ValueError` from `_format_date`, `AttributeError` from
`data.get('flights', [])` on a non-dict `data`, or any exception from
`self.agent.run`. -/
def search_flights (origin destination departure_date : String) (adults : Int)
    (cabin_class : String) (outcome : FirecrawlOutcome)
    (agent : String → Except String String) : Except PyErr RunResult :=
  match format_date departure_date with
  | Except.error _ => Except.error PyErr.valueError
  | Except.ok formatted_date =>
    let flight_url := flight_url_of origin destination formatted_date adults cabin_class
    let prompt := extractionPrompt origin destination departure_date
    match extractFlights flight_url prompt flightsSchema outcome with
    | Except.error e => Except.error e
    | Except.ok flights =>
      if truthy flights then
        match agent (analysisPrompt origin destination flights flight_url) with
        | Except.error e => Except.error (PyErr.agentError e)
        | Except.ok content =>
          Except.ok ⟨content, [analysisPrompt origin destination flights flight_url]⟩
      else Except.ok ⟨noFlightsMsg flight_url, []⟩

/-- `big` contains `small` as a contiguous substring. -/
def containsStr (big small : String) : Prop :=
  ∃ a b, big = a ++ small ++ b

/-! ### Helper lemmas (shared; not themselves claim theorems) -/

theorem char_toNat_ofNat_valid {n : Nat} (h : n.isValidChar) : (Char.ofNat n).toNat = n := by
  unfold Char.ofNat
  rw [dif_pos h]
  rfl

theorem pyLowerChar_idem (c : Char) : pyLowerChar (pyLowerChar c) = pyLowerChar c := by
  unfold pyLowerChar
  by_cases h : 65 ≤ c.toNat ∧ c.toNat ≤ 90
  · rw [if_pos h]
    have hv : (c.toNat + 32).isValidChar := Or.inl (by omega)
    have ht : (Char.ofNat (c.toNat + 32)).toNat = c.toNat + 32 := char_toNat_ofNat_valid hv
    rw [if_neg]
    rw [ht]
    omega
  · rw [if_neg h, if_neg h]

theorem pyLower_idem (s : String) : pyLower (pyLower s) = pyLower s := by
  cases s with
  | mk data =>
    show String.mk ((data.map pyLowerChar).map pyLowerChar) = String.mk (data.map pyLowerChar)
    rw [List.map_map]
    congr 1
    exact List.map_congr_left fun a _ => pyLowerChar_idem a

theorem pad2_spec : ∀ n, n < 100 → (pad2 n).length = 2 ∧ (pad2 n).data.all Char.isDigit = true := by
  decide

theorem daysInMonth_le (y m : Nat) : daysInMonth y m ≤ 31 := by
  unfold daysInMonth
  split
  · split <;> omega
  · split <;> omega

theorem strptimeYmd_bounds {s : String} {y m d : Nat}
    (h : strptimeYmd s = some (y, m, d)) :
    1 ≤ y ∧ 1 ≤ m ∧ m ≤ 12 ∧ 1 ≤ d ∧ d ≤ 31 := by
  unfold strptimeYmd at h
  split at h
  case _ ys ms ds =>
    dsimp only at h
    split at h
    case isTrue hc =>
      injection h with h'
      injection h' with hy h''
      injection h'' with hm hd
      subst hy; subst hm; subst hd
      obtain ⟨-, -, -, -, -, -, hy1, hm1, hm2, hd1, hd2⟩ := hc
      exact ⟨hy1, hm1, hm2, hd1, le_trans hd2 (daysInMonth_le _ _)⟩
    case isFalse => exact absurd h (by simp)
  case _ => exact absurd h (by simp)

theorem containsStr_refl (s : String) : containsStr s s :=
  ⟨"", "", by simp⟩

theorem containsStr_appL (x y s : String) (h : containsStr x s) : containsStr (x ++ y) s := by
  obtain ⟨a, b, rfl⟩ := h
  exact ⟨a, b ++ y, by simp [String.append_assoc]⟩

theorem containsStr_appR (x y s : String) (h : containsStr y s) : containsStr (x ++ y) s := by
  obtain ⟨a, b, rfl⟩ := h
  exact ⟨x ++ a, b, by simp [String.append_assoc]⟩

theorem extractFlights_args (url prompt : String) (schema : PyVal)
    (outcome : FirecrawlOutcome) :
    extractFlights url prompt schema outcome = providerFlights outcome := by
  cases outcome <;> rfl

/-! ### Claim theorems -/

/-- C3: for every input string that parses as a valid `YYYY-MM-DD`
calendar date, `_format_date` returns the six-character numeric
`DDMMYY` rendering of that date; for every input that does not parse,
it fails with the date error (`ValueError`, the spec's
`MalformedDateError`) and never silently falls back to a value. -/
theorem format_date_total_spec (s : String) :
    (∃ y m d, strptimeYmd s = some (y, m, d) ∧
       format_date s = Except.ok (strftimeDmy y m d) ∧
       (strftimeDmy y m d).length = 6 ∧
       (strftimeDmy y m d).data.all Char.isDigit = true) ∨
    (strptimeYmd s = none ∧ format_date s = Except.error PyErr.valueError) := by
  cases hx : strptimeYmd s with
  | none => exact Or.inr ⟨rfl, by simp [format_date, hx]⟩
  | some t =>
    obtain ⟨y, m, d⟩ := t
    obtain ⟨hy, hm1, hm2, hd1, hd2⟩ := strptimeYmd_bounds hx
    have pd := pad2_spec d (by omega)
    have pm := pad2_spec m (by omega)
    have py := pad2_spec (y % 100) (Nat.mod_lt _ (by omega))
    refine Or.inl ⟨y, m, d, rfl, by simp [format_date, hx], ?_, ?_⟩
    · simp [strftimeDmy, String.length_append, pd.1, pm.1, py.1]
    · simp [strftimeDmy, String.data_append, List.all_append, pd.2, pm.2, py.2]

/-- C4: with origin `LKO`, destination `DEL`, date `2025-03-25`,
1 adult and cabin class `economy`, the formatted date is exactly
`250325`, the built search URL is exactly the expected Skyscanner URL,
and a run of `search_flights` (here with the provider raising, so the
fallback carries the URL) embeds exactly that URL. -/
theorem scenario_lko_del_url :
    format_date "2025-03-25" = Except.ok "250325" ∧
    flight_url_of "LKO" "DEL" "250325" 1 "economy" =
      "https://www.skyscanner.co.in/transport/flights/lko/del/250325/?adultsv2=1&cabinclass=economy" ∧
    search_flights "LKO" "DEL" "2025-03-25" 1 "economy" FirecrawlOutcome.raises
      (fun _ => Except.ok "") =
      Except.ok ⟨noFlightsMsg
        "https://www.skyscanner.co.in/transport/flights/lko/del/250325/?adultsv2=1&cabinclass=economy",
        []⟩ :=
  ⟨rfl, rfl, rfl⟩

/-- C5: the built search URL is invariant under the letter case of the
origin, destination and cabin-class inputs — it is identical to the URL
built from the all-lowercase form of those inputs. -/
theorem flight_url_case_invariant (origin destination date : String) (adults : Int)
    (cabin_class : String) :
    flight_url_of origin destination date adults cabin_class =
      flight_url_of (pyLower origin) (pyLower destination) date adults (pyLower cabin_class) := by
  unfold flight_url_of
  rw [pyLower_idem, pyLower_idem, pyLower_idem]

/-- C10: `_format_date` accepts strictly more than canonical
zero-padded `YYYY-MM-DD` input: `"2025-3-5"`, with unpadded month and
day, is not the canonical form `"2025-03-05"`, yet both succeed and
produce the same six-character `DDMMYY` string `"050325"`. -/
theorem format_date_accepts_unpadded :
    format_date "2025-3-5" = Except.ok "050325" ∧
    ("2025-3-5" : String) ≠ "2025-03-05" ∧
    format_date "2025-03-05" = Except.ok "050325" :=
  ⟨rfl, by decide, rfl⟩

/-- C1 (counterexample): a success-flagged provider response whose
`data` field is `None` makes the extraction step of `search_flights`
raise: `_fetch_flight_data` returns `None`, and the subsequent
`data.get('flights', [])` — outside the `try`/`except` — raises an
`AttributeError` that propagates to `search_flights`'s caller instead
of an empty offer list. -/
theorem search_flights_raises_on_null_data :
    search_flights "LKO" "DEL" "2025-03-25" 1 "economy"
      (FirecrawlOutcome.returns (PyVal.dictval
        [("success", PyVal.boolean true), ("data", PyVal.null)]))
      (fun _ => Except.ok "recommendation") = Except.error PyErr.attributeError :=
  rfl

/-- C1 (amended): the extraction step of `search_flights` yields a
value (never an exception) exactly when the fetched `data` value is a
dict — which holds for thrown transport exceptions, non-dict responses,
failure-flagged responses, and success responses whose `data` field is
absent or an object; but a success response whose `data` field is null
or another non-object value makes it raise `AttributeError`. -/
theorem extract_ok_iff_data_dict (url prompt : String) (schema : PyVal)
    (outcome : FirecrawlOutcome) :
    (∃ v, extractFlights url prompt schema outcome = Except.ok v) ↔
    (∃ es, fetch_flight_data url prompt schema outcome = PyVal.dictval es) := by
  unfold extractFlights
  cases hf : fetch_flight_data url prompt schema outcome <;> simp [pyGet]

/-- C6 (counterexample): a success-flagged provider response whose
`data` field is a string (not an object) makes the extraction step
raise `AttributeError` rather than return the `flights` field or the
empty list, refuting the claim for arbitrary success responses. -/
theorem extract_raises_on_string_data :
    extractFlights "u" "p" flightsSchema
      (FirecrawlOutcome.returns (PyVal.dictval
        [("success", PyVal.boolean true), ("data", PyVal.string "oops")])) =
      Except.error PyErr.attributeError :=
  rfl

/-- C6 (amended): for every provider response whose `success` flag is
truthy and whose `data` payload is absent or an object, the extraction
step returns the `flights` field of the payload, defaulting to the
empty list when the payload or its `flights` field is absent. -/
theorem extract_success_payload (url prompt : String) (schema : PyVal) (resp s : PyVal)
    (es : List (String × PyVal))
    (hs : pyGet resp "success" PyVal.null = Except.ok s) (ht : truthy s = true)
    (hd : pyGet resp "data" (PyVal.dictval []) = Except.ok (PyVal.dictval es)) :
    extractFlights url prompt schema (FirecrawlOutcome.returns resp) =
      Except.ok (dictLookupD es "flights" (PyVal.listval [])) := by
  unfold extractFlights fetch_flight_data
  simp only [hs, ht, if_true, hd]
  rfl

/-- Witness for the amended C6 theorem at a concrete success response
carrying one flight offer. -/
theorem extract_success_payload_witness :
    extractFlights "u" "p" flightsSchema
      (FirecrawlOutcome.returns (PyVal.dictval
        [("success", PyVal.boolean true),
         ("data", PyVal.dictval
           [("flights", PyVal.listval [PyVal.dictval [("airline", PyVal.string "AI")]])])])) =
      Except.ok (PyVal.listval [PyVal.dictval [("airline", PyVal.string "AI")]]) :=
  extract_success_payload "u" "p" flightsSchema
    (PyVal.dictval
      [("success", PyVal.boolean true),
       ("data", PyVal.dictval
         [("flights", PyVal.listval [PyVal.dictval [("airline", PyVal.string "AI")]])])])
    (PyVal.boolean true)
    [("flights", PyVal.listval [PyVal.dictval [("airline", PyVal.string "AI")]])]
    rfl rfl rfl

theorem search_flights_eq (origin destination departure_date : String) (adults : Int)
    (cabin_class : String) (outcome : FirecrawlOutcome)
    (agent : String → Except String String) (fd : String) (flights : PyVal)
    (hfd : format_date departure_date = Except.ok fd)
    (hx : providerFlights outcome = Except.ok flights) :
    search_flights origin destination departure_date adults cabin_class outcome agent =
      (if truthy flights then
        match agent (analysisPrompt origin destination flights
            (flight_url_of origin destination fd adults cabin_class)) with
        | Except.error e => Except.error (PyErr.agentError e)
        | Except.ok content =>
          Except.ok ⟨content, [analysisPrompt origin destination flights
            (flight_url_of origin destination fd adults cabin_class)]⟩
       else Except.ok ⟨noFlightsMsg (flight_url_of origin destination fd adults cabin_class), []⟩) := by
  simp only [search_flights, hfd, extractFlights_args, hx]

/-- C2: for a run whose extraction step produced the flight-offer list
`l`, the returned result is the fallback message carrying the built
search URL, with the composer never invoked, when `l` is empty; and for
every completed run, the composer was invoked (recommendation text was
composed) iff `l` is non-empty. -/
theorem search_result_iff_offers (origin destination departure_date : String) (adults : Int)
    (cabin_class : String) (outcome : FirecrawlOutcome)
    (agent : String → Except String String) (fd : String) (l : List PyVal)
    (hfd : format_date departure_date = Except.ok fd)
    (hx : providerFlights outcome = Except.ok (PyVal.listval l)) :
    (l = [] → search_flights origin destination departure_date adults cabin_class outcome agent =
        Except.ok ⟨noFlightsMsg (flight_url_of origin destination fd adults cabin_class), []⟩) ∧
    (∀ r, search_flights origin destination departure_date adults cabin_class outcome agent =
        Except.ok r → (r.agentCalls ≠ [] ↔ l ≠ [])) := by
  rw [search_flights_eq origin destination departure_date adults cabin_class outcome agent
    fd (PyVal.listval l) hfd hx]
  cases l with
  | nil =>
    refine ⟨fun _ => by simp [truthy], fun r hr => ?_⟩
    simp [truthy] at hr
    simp [← hr]
  | cons v vs =>
    refine ⟨fun h => absurd h (by simp), fun r hr => ?_⟩
    simp only [truthy, List.isEmpty_cons, Bool.not_false, if_true] at hr
    cases ha : agent (analysisPrompt origin destination (PyVal.listval (v :: vs))
        (flight_url_of origin destination fd adults cabin_class)) with
    | error e => rw [ha] at hr; exact absurd hr (by simp)
    | ok c =>
      rw [ha] at hr
      simp only [Except.ok.injEq] at hr
      simp [← hr]

/-- Witness for C2 at a concrete success response with an empty flights
list: the orchestrator returns the fallback message with the built URL
and the composer is never invoked. -/
theorem search_result_iff_offers_witness :
    search_flights "LKO" "DEL" "2025-03-25" 1 "economy"
      (FirecrawlOutcome.returns (PyVal.dictval
        [("success", PyVal.boolean true),
         ("data", PyVal.dictval [("flights", PyVal.listval [])])]))
      (fun _ => Except.ok "text") =
      Except.ok ⟨noFlightsMsg (flight_url_of "LKO" "DEL" "250325" 1 "economy"), []⟩ :=
  (search_result_iff_offers "LKO" "DEL" "2025-03-25" 1 "economy"
    (FirecrawlOutcome.returns (PyVal.dictval
      [("success", PyVal.boolean true),
       ("data", PyVal.dictval [("flights", PyVal.listval [])])]))
    (fun _ => Except.ok "text") "250325" [] rfl rfl).1 rfl

/-- C7: for a non-empty extracted flight list, any exception raised by
the LLM delegate call is not caught inside `search_flights`: the run
terminates with that exception instead of a result value. -/
theorem composer_error_propagates (origin destination departure_date : String) (adults : Int)
    (cabin_class : String) (outcome : FirecrawlOutcome)
    (agent : String → Except String String) (fd : String) (l : List PyVal) (e : String)
    (hfd : format_date departure_date = Except.ok fd)
    (hx : providerFlights outcome = Except.ok (PyVal.listval l)) (hl : l ≠ [])
    (ha : agent (analysisPrompt origin destination (PyVal.listval l)
        (flight_url_of origin destination fd adults cabin_class)) = Except.error e) :
    search_flights origin destination departure_date adults cabin_class outcome agent =
      Except.error (PyErr.agentError e) := by
  have ht : truthy (PyVal.listval l) = true := by
    cases l with
    | nil => exact absurd rfl hl
    | cons v vs => simp [truthy]
  rw [search_flights_eq origin destination departure_date adults cabin_class outcome agent
    fd (PyVal.listval l) hfd hx]
  rw [if_pos ht, ha]

/-- Witness for C7: with one extracted offer and an agent that raises,
the run of `search_flights` ends with the agent's exception. -/
theorem composer_error_propagates_witness :
    search_flights "LKO" "DEL" "2025-03-25" 1 "economy"
      (FirecrawlOutcome.returns (PyVal.dictval
        [("success", PyVal.boolean true),
         ("data", PyVal.dictval
           [("flights", PyVal.listval [PyVal.dictval [("airline", PyVal.string "AI")]])])]))
      (fun _ => Except.error "boom") = Except.error (PyErr.agentError "boom") :=
  composer_error_propagates "LKO" "DEL" "2025-03-25" 1 "economy"
    (FirecrawlOutcome.returns (PyVal.dictval
      [("success", PyVal.boolean true),
       ("data", PyVal.dictval
         [("flights", PyVal.listval [PyVal.dictval [("airline", PyVal.string "AI")]])])]))
    (fun _ => Except.error "boom") "250325"
    [PyVal.dictval [("airline", PyVal.string "AI")]] "boom"
    rfl rfl (List.cons_ne_nil _ _) rfl

/-- C8: for a non-empty extracted flight list, `search_flights` builds
a single prompt embedding the raw offer list, the four fixed analytical
directives and a trailing link to the built search URL, invokes the LLM
agent exactly once with that prompt, and returns the agent's text
verbatim. -/
theorem composer_invoked_once_verbatim (origin destination departure_date : String)
    (adults : Int) (cabin_class : String) (outcome : FirecrawlOutcome)
    (agent : String → Except String String) (fd : String) (l : List PyVal) (content : String)
    (hfd : format_date departure_date = Except.ok fd)
    (hx : providerFlights outcome = Except.ok (PyVal.listval l)) (hl : l ≠ [])
    (ha : agent (analysisPrompt origin destination (PyVal.listval l)
        (flight_url_of origin destination fd adults cabin_class)) = Except.ok content) :
    search_flights origin destination departure_date adults cabin_class outcome agent =
      Except.ok ⟨content, [analysisPrompt origin destination (PyVal.listval l)
        (flight_url_of origin destination fd adults cabin_class)]⟩ ∧
    containsStr (analysisPrompt origin destination (PyVal.listval l)
        (flight_url_of origin destination fd adults cabin_class))
      (pyStr (PyVal.listval l)) ∧
    containsStr (analysisPrompt origin destination (PyVal.listval l)
        (flight_url_of origin destination fd adults cabin_class))
      (flight_url_of origin destination fd adults cabin_class) ∧
    containsStr (analysisPrompt origin destination (PyVal.listval l)
        (flight_url_of origin destination fd adults cabin_class))
      "Compare flights based on ticket price, travel time, and layovers." ∧
    containsStr (analysisPrompt origin destination (PyVal.listval l)
        (flight_url_of origin destination fd adults cabin_class))
      "Highlight 3 best flights based on cost, convenience, and airline service." ∧
    containsStr (analysisPrompt origin destination (PyVal.listval l)
        (flight_url_of origin destination fd adults cabin_class))
      "When to book for the best price?" ∧
    containsStr (analysisPrompt origin destination (PyVal.listval l)
        (flight_url_of origin destination fd adults cabin_class))
      "Which airline offers the best experience?" := by
  have ht : truthy (PyVal.listval l) = true := by
    cases l with
    | nil => exact absurd rfl hl
    | cons v vs => simp [truthy]
  refine ⟨?_, ?_, ?_, ?_, ?_, ?_, ?_⟩
  · rw [search_flights_eq origin destination departure_date adults cabin_class outcome agent
      fd (PyVal.listval l) hfd hx]
    rw [if_pos ht, ha]
  · simp only [analysisPrompt]
    iterate 11 apply containsStr_appL
    exact containsStr_appR _ _ _ (containsStr_refl _)
  · simp only [analysisPrompt]
    iterate 1 apply containsStr_appL
    exact containsStr_appR _ _ _ (containsStr_refl _)
  · simp only [analysisPrompt]
    iterate 9 apply containsStr_appL
    exact containsStr_appR _ _ _ (containsStr_refl _)
  · simp only [analysisPrompt]
    iterate 7 apply containsStr_appL
    exact containsStr_appR _ _ _ (containsStr_refl _)
  · simp only [analysisPrompt]
    iterate 5 apply containsStr_appL
    exact containsStr_appR _ _ _ (containsStr_refl _)
  · simp only [analysisPrompt]
    iterate 3 apply containsStr_appL
    exact containsStr_appR _ _ _ (containsStr_refl _)

/-- Witness for C8 at one concrete extracted offer and an agent
returning fixed text: the run returns that text and the agent was
called exactly once, with the analysis prompt. -/
theorem composer_invoked_once_verbatim_witness :
    search_flights "LKO" "DEL" "2025-03-25" 1 "economy"
      (FirecrawlOutcome.returns (PyVal.dictval
        [("success", PyVal.boolean true),
         ("data", PyVal.dictval
           [("flights", PyVal.listval [PyVal.dictval [("airline", PyVal.string "AI")]])])]))
      (fun _ => Except.ok "Great analysis") =
      Except.ok ⟨"Great analysis",
        [analysisPrompt "LKO" "DEL"
          (PyVal.listval [PyVal.dictval [("airline", PyVal.string "AI")]])
          (flight_url_of "LKO" "DEL" "250325" 1 "economy")]⟩ :=
  (composer_invoked_once_verbatim "LKO" "DEL" "2025-03-25" 1 "economy"
    (FirecrawlOutcome.returns (PyVal.dictval
      [("success", PyVal.boolean true),
       ("data", PyVal.dictval
         [("flights", PyVal.listval [PyVal.dictval [("airline", PyVal.string "AI")]])])]))
    (fun _ => Except.ok "Great analysis") "250325"
    [PyVal.dictval [("airline", PyVal.string "AI")]] "Great analysis"
    rfl rfl (List.cons_ne_nil _ _) rfl).1

/-- C9: `search_flights` enforces no precondition on the passenger
count or the cabin class: for every integer `adults` (including zero,
negatives and values above 10) and every cabin-class string, the run
(here with the provider raising, so it ends in the fallback) completes
without an exception, and the built URL interpolates the decimal
rendering of `adults` verbatim and the lowercased cabin-class string. -/
theorem search_flights_unvalidated_inputs (origin destination departure_date : String)
    (adults : Int) (cabin_class : String) (agent : String → Except String String)
    (fd : String) (hfd : format_date departure_date = Except.ok fd) :
    search_flights origin destination departure_date adults cabin_class
      FirecrawlOutcome.raises agent =
      Except.ok ⟨noFlightsMsg (flight_url_of origin destination fd adults cabin_class), []⟩ ∧
    containsStr (flight_url_of origin destination fd adults cabin_class)
      (toString adults) ∧
    containsStr (flight_url_of origin destination fd adults cabin_class)
      (pyLower cabin_class) := by
  refine ⟨?_, ?_, ?_⟩
  · rw [search_flights_eq origin destination departure_date adults cabin_class
      FirecrawlOutcome.raises agent fd (PyVal.listval []) hfd rfl]
    simp [truthy]
  · unfold flight_url_of skyscannerURL
    iterate 2 apply containsStr_appL
    exact containsStr_appR _ _ _ (containsStr_refl _)
  · unfold flight_url_of skyscannerURL
    exact containsStr_appR _ _ _ (containsStr_refl _)

/-- Witness for C9 at a negative passenger count and an arbitrary
cabin-class string: the run still completes with the fallback result. -/
theorem search_flights_unvalidated_inputs_witness :
    search_flights "LKO" "DEL" "2025-03-25" (-3) "FIRST Class" FirecrawlOutcome.raises
      (fun _ => Except.ok "x") =
      Except.ok ⟨noFlightsMsg (flight_url_of "LKO" "DEL" "250325" (-3) "FIRST Class"), []⟩ :=
  (search_flights_unvalidated_inputs "LKO" "DEL" "2025-03-25" (-3) "FIRST Class"
    (fun _ => Except.ok "x") "250325" rfl).1
